import Mathlib

/-!
Verification development for the NBA2K player-ratings scraper (src/index.js).

The JavaScript source is shallowly embedded: HTML documents become a tree
type `HNode`, the cheerio selector calls used by the scraper become list
returning traversals in document (pre)order, JavaScript `parseInt` becomes
`jsParseInt`, the two extractors (`getPlayersUrlsFromEachTeam`,
`getPlayerDetail`) and the `main` orchestration become pure functions over
fetch results (`Except`), and the file-system effects of the final phase
become a trace of `FsOp` operations interpreted against an explicit
`FsState`.
-/

mutual
/-- An HTML node: an element with a tag, a class list, an id attribute, an
optional `href` attribute and child nodes, or a text node.  Only the
attributes the scraper reads (`class`, `id`, `href`) are modelled. -/
inductive HNode where
  | elem (tag : String) (classes : List String) (idAttr : String)
      (href : Option String) (children : HForest)
  | text (data : String)
deriving Repr
/-- A list of sibling HTML nodes (mutually defined with `HNode`). -/
inductive HForest where
  | nil
  | cons (head : HNode) (tail : HForest)
deriving Repr
end

/-- Convert a forest of children to a list. -/
def HForest.toList : HForest → List HNode
  | .nil => []
  | .cons x xs => x :: xs.toList

/-- Build a forest of children from a list. -/
def HForest.ofList : List HNode → HForest
  | [] => .nil
  | x :: xs => .cons x (HForest.ofList xs)

/-- The ordered child nodes of a node (a text node has none), matching the
`children` property of a cheerio/domhandler node. -/
def HNode.childList : HNode → List HNode
  | .text _ => []
  | .elem _ _ _ _ ch => ch.toList

/-- The `data` property: the literal payload of a text node, absent on
elements (reading `.data` on an element yields `undefined`). -/
def HNode.nodeData : HNode → Option String
  | .text d => some d
  | .elem _ _ _ _ _ => none

/-- The `href` attribute of an element, absent on text nodes and on
elements that do not carry it. -/
def HNode.hrefAttr : HNode → Option String
  | .elem _ _ _ h _ => h
  | .text _ => none

/-- Does the node carry the given CSS class? -/
def hasClass (c : String) : HNode → Bool
  | .elem _ classes _ _ _ => classes.contains c
  | .text _ => false

/-- Is the node an element with the given tag? -/
def isTag (t : String) : HNode → Bool
  | .elem tag _ _ _ _ => tag = t
  | .text _ => false

/-- Does the node carry the given id attribute?  Only used with the seven
fixed `pills-*-tab` ids from the source. -/
def hasId (i : String) : HNode → Bool
  | .elem _ _ idAttr _ _ => idAttr = i
  | .text _ => false

mutual
/-- All nodes of a subtree, self first, in document (pre)order. -/
def HNode.nodes : HNode → List HNode
  | .text d => [.text d]
  | .elem t c i h ch => .elem t c i h ch :: ch.nodesF
/-- All nodes of a forest in document (pre)order. -/
def HForest.nodesF : HForest → List HNode
  | .nil => []
  | .cons x xs => x.nodes ++ xs.nodesF
end

/-- `$(selector)` over a document (a list of root nodes): all matching
nodes in document order. -/
def selectAll (p : HNode → Bool) (roots : List HNode) : List HNode :=
  (roots.flatMap HNode.nodes).filter p

mutual
/-- Descendant-combinator selection (`.a .b ... .z last`): collect, in
document order, the elements matching `lastP` that have a strictly nested
chain of ancestors matching each predicate of `preds` in order.  `k` is
the length of the longest prefix of `preds` matched along the ancestors of
the current node (greedy matching, which is complete for subsequence
embedding). -/
def chainNode (preds : List (HNode → Bool)) (lastP : HNode → Bool) (k : Nat) :
    HNode → List HNode
  | .text _ => []
  | .elem t c i h ch =>
    let n := HNode.elem t c i h ch
    let hit := if preds.length ≤ k && lastP n then [n] else []
    let k2 := match preds[k]? with
      | some p => if p n then k + 1 else k
      | none => k
    hit ++ chainForest preds lastP k2 ch
/-- `chainNode` mapped over a forest. -/
def chainForest (preds : List (HNode → Bool)) (lastP : HNode → Bool) (k : Nat) :
    HForest → List HNode
  | .nil => []
  | .cons x xs => chainNode preds lastP k x ++ chainForest preds lastP k xs
end

/-- Descendant-combinator selection over a document. -/
def selectChain (preds : List (HNode → Bool)) (lastP : HNode → Bool)
    (roots : List HNode) : List HNode :=
  roots.flatMap (chainNode preds lastP 0)

mutual
/-- The concatenated text of all descendant text nodes, cheerio's
`.text()` for a single element. -/
def HNode.textContent : HNode → String
  | .text d => d
  | .elem _ _ _ _ ch => ch.textContentF
/-- Concatenated text of a forest. -/
def HForest.textContentF : HForest → String
  | .nil => ""
  | .cons x xs => x.textContent ++ xs.textContentF
end

/-- cheerio's `$(sel).text()`: the concatenation of the text content of
every matched element. -/
def textOfMatches (p : HNode → Bool) (doc : List HNode) : String :=
  String.join ((selectAll p doc).map HNode.textContent)

/-- Decimal value of a digit string. -/
def digitsToNat (ds : List Char) : Nat :=
  ds.foldl (fun acc c => acc * 10 + (c.toNat - 48)) 0

/-- Model of JavaScript `parseInt` on a string argument (decimal form:
skip leading whitespace, optional sign, then the longest digit prefix;
`none` models `NaN`; the hexadecimal `0x` form is not modelled, no input
of the scraper uses it). -/
def jsParseInt (s : String) : Option Int :=
  let cs := s.data.dropWhile (fun c => c.isWhitespace)
  let rest := match cs with
    | '-' :: r => r
    | '+' :: r => r
    | _ => cs
  let sign : Int := match cs with
    | '-' :: _ => -1
    | _ => 1
  let ds := rest.takeWhile (fun c => c.isDigit)
  if ds.isEmpty then none else some (sign * digitsToNat ds)

/-- Model of JavaScript `String.prototype.trim`: strip whitespace from
both ends (structurally, over the character list). -/
def jsTrim (s : String) : String :=
  String.mk
    ((((s.data.dropWhile (fun c => c.isWhitespace)).reverse).dropWhile
      (fun c => c.isWhitespace)).reverse)

/-- JavaScript `s || dflt` for strings: the empty string is falsy. -/
def jsOr (s dflt : String) : String :=
  if s = "" then dflt else s

/-- JavaScript `x?.y || dflt`: an absent value or an empty string falls
back to the default. -/
def jsOrOpt (o : Option String) (dflt : String) : String :=
  match o with
  | some s => jsOr s dflt
  | none => dflt

/-- `node.children[0]?.data`: the data of the first child when that child
is a text node. -/
def HNode.firstChildData (n : HNode) : Option String :=
  n.childList.head?.bind HNode.nodeData

/-- `safeInt` from `getPlayerDetail`:
`parseInt(attributes[index]?.children[0]?.data?.trim()) || 0`. -/
def safeInt (attributes : List HNode) (index : Nat) : Int :=
  ((attributes[index]?.bind HNode.firstChildData).bind
    (fun d => jsParseInt (jsTrim d))).getD 0

/-- `safeBadge` from `getPlayerDetail`:
`parseInt(badgeRawData[i]?.children[0]?.data) || 0`. -/
def safeBadge (badgeRawData : List HNode) (i : Nat) : Int :=
  ((badgeRawData[i]?.bind HNode.firstChildData).bind jsParseInt).getD 0

/-- First match of the regular expression `\((\d+)\)` in a character list:
an opening parenthesis followed by at least one digit followed by a
closing parenthesis; returns the digits' value. -/
def findParenNum : List Char → Option Nat
  | [] => none
  | c :: rest =>
    if c = '(' then
      let ds := rest.takeWhile (fun d => d.isDigit)
      if ds.isEmpty then findParenNum rest
      else if (rest.drop ds.length).head? = some ')' then some (digitsToNat ds)
      else findParenNum rest
    else findParenNum rest

/-- `parseBadgeTab` applied to a tab's text: extract the first
parenthesized decimal integer, default 0. -/
def parseBadgeTabText (t : String) : Int :=
  match findParenNum t.data with
  | some n => Int.ofNat n
  | none => 0

/-- The text of the element with the given id (`$("#" + tabId).text()`). -/
def tabTextOf (doc : List HNode) (tabId : String) : String :=
  textOfMatches (hasId tabId) doc

/-- `parseBadgeTab` from `getPlayerDetail`. -/
def parseBadgeTab (doc : List HNode) (tabId : String) : Int :=
  parseBadgeTabText (tabTextOf doc tabId)

/-- `$("h1").text()`. -/
def h1Text (doc : List HNode) : String :=
  textOfMatches (isTag "h1") doc

/-- `$(".attribute-box-player").text()`. -/
def overallText (doc : List HNode) : String :=
  textOfMatches (hasClass "attribute-box-player") doc

/-- `$(".content .card .card-body .list-no-bullet li .attribute-box")`:
the flat ordered attribute-box sequence. -/
def attrBoxes (doc : List HNode) : List HNode :=
  selectChain
    [hasClass "content", hasClass "card", hasClass "card-body",
     hasClass "list-no-bullet", isTag "li"]
    (hasClass "attribute-box") doc

/-- `$(".badge-count")`: the badge tier count elements. -/
def badgeBoxes (doc : List HNode) : List HNode :=
  selectAll (hasClass "badge-count") doc

/-- `$(".header-subtitle")[0]?.children || []`. -/
def headerChildren (doc : List HNode) : List HNode :=
  ((selectAll (hasClass "header-subtitle") doc).head?.map HNode.childList).getD []

/-- `header?.[i]?.children?.[1]?.children?.[0]?.data`: the fixed nested
child path used for height (i = 6) and position (i = 4). -/
def pathData (header : List HNode) (i : Nat) : Option String :=
  ((header[i]?.bind (fun a => a.childList[1]?)).bind
    (fun b => b.childList[0]?)).bind HNode.nodeData

/-- The player record constructed by `getPlayerDetail`, fields in the
order they are assigned in the source. -/
structure Player where
  name : String
  overallAttribute : Int
  team : String
  closeShot : Int
  midRangeShot : Int
  threePointShot : Int
  freeThrow : Int
  shotIQ : Int
  offensiveConsistency : Int
  speed : Int
  agility : Int
  strength : Int
  vertical : Int
  stamina : Int
  hustle : Int
  overallDurability : Int
  layup : Int
  standingDunk : Int
  drivingDunk : Int
  postHook : Int
  postFade : Int
  postControl : Int
  drawFoul : Int
  hands : Int
  passAccuracy : Int
  ballHandle : Int
  speedWithBall : Int
  passIQ : Int
  passVision : Int
  interiorDefense : Int
  perimeterDefense : Int
  steal : Int
  block : Int
  helpDefenseIQ : Int
  passPerception : Int
  defensiveConsistency : Int
  offensiveRebound : Int
  defensiveRebound : Int
  legendaryBadgeCount : Int
  purpleBadgeCount : Int
  goldBadgeCount : Int
  silverBadgeCount : Int
  bronzeBadgeCount : Int
  badgeCount : Int
  outsideScoringBadgeCount : Int
  insideScoringBadgeCount : Int
  playmakingBadgeCount : Int
  defensiveBadgeCount : Int
  reboundingBadgeCount : Int
  generalOffenseBadgeCount : Int
  allAroundBadgeCount : Int
  height : String
  position : String

/-- The record-construction part of `getPlayerDetail` on a successfully
fetched and parsed page. -/
def buildPlayer (team : String) (doc : List HNode) : Player :=
  let attributes := attrBoxes doc
  let badgeRawData := badgeBoxes doc
  let header := headerChildren doc
  { name := jsOr (jsTrim (h1Text doc)) "Unknown"
    overallAttribute := (jsParseInt (jsTrim (overallText doc))).getD 0
    team := team
    closeShot := safeInt attributes 0
    midRangeShot := safeInt attributes 1
    threePointShot := safeInt attributes 2
    freeThrow := safeInt attributes 3
    shotIQ := safeInt attributes 4
    offensiveConsistency := safeInt attributes 5
    speed := safeInt attributes 6
    agility := safeInt attributes 7
    strength := safeInt attributes 8
    vertical := safeInt attributes 9
    stamina := safeInt attributes 10
    hustle := safeInt attributes 11
    overallDurability := safeInt attributes 12
    layup := safeInt attributes 13
    standingDunk := safeInt attributes 14
    drivingDunk := safeInt attributes 15
    postHook := safeInt attributes 16
    postFade := safeInt attributes 17
    postControl := safeInt attributes 18
    drawFoul := safeInt attributes 19
    hands := safeInt attributes 20
    passAccuracy := safeInt attributes 21
    ballHandle := safeInt attributes 22
    speedWithBall := safeInt attributes 23
    passIQ := safeInt attributes 24
    passVision := safeInt attributes 25
    interiorDefense := safeInt attributes 26
    perimeterDefense := safeInt attributes 27
    steal := safeInt attributes 28
    block := safeInt attributes 29
    helpDefenseIQ := safeInt attributes 30
    passPerception := safeInt attributes 31
    defensiveConsistency := safeInt attributes 32
    offensiveRebound := safeInt attributes 33
    defensiveRebound := safeInt attributes 34
    legendaryBadgeCount := safeBadge badgeRawData 0
    purpleBadgeCount := safeBadge badgeRawData 1
    goldBadgeCount := safeBadge badgeRawData 2
    silverBadgeCount := safeBadge badgeRawData 3
    bronzeBadgeCount := safeBadge badgeRawData 4
    badgeCount := safeBadge badgeRawData 5
    outsideScoringBadgeCount := parseBadgeTab doc "pills-outscoring-tab"
    insideScoringBadgeCount := parseBadgeTab doc "pills-inscoring-tab"
    playmakingBadgeCount := parseBadgeTab doc "pills-playmaking-tab"
    defensiveBadgeCount := parseBadgeTab doc "pills-defense-tab"
    reboundingBadgeCount := parseBadgeTab doc "pills-rebounding-tab"
    generalOffenseBadgeCount := parseBadgeTab doc "pills-genoffense-tab"
    allAroundBadgeCount := parseBadgeTab doc "pills-allaround-tab"
    height := jsOrOpt (pathData header 6) "N/A"
    position := jsOrOpt (pathData header 4) "N/A" }

/-- Warnings written via `console.warn` by the two extractors. -/
inductive Warn where
  | teamFetch (team : String) (err : String)
  | playerFetch (url : String) (err : String)
deriving Repr, DecidableEq

/-- `getPlayerDetail(team, playerUrl)` as a function of the fetch result:
on a fetch failure the catch branch logs a warning naming the URL and
returns `null`; otherwise the record is constructed. -/
def getPlayerDetail (team : String) (playerUrl : String)
    (fetched : Except String (List HNode)) : Option Player × List Warn :=
  match fetched with
  | .error e => (none, [.playerFetch playerUrl e])
  | .ok doc => (some (buildPlayer team doc), [])

/-- `cheerio.load(entry)("a").attr("href")`: the `href` of the first
anchor within the entry subtree. -/
def entryHref (entry : HNode) : Option String :=
  (selectAll (isTag "a") [entry]).head?.bind HNode.hrefAttr

/-- The URL-collecting loop of `getPlayersUrlsFromEachTeam`: the non-empty
`href`s of the first anchor of every `.entry-font` element under the
table, in document order (`if (playerUrl) playerUrls.push(playerUrl)`). -/
def rosterUrls (table : HNode) : List String :=
  (selectAll (hasClass "entry-font") [table]).filterMap fun entry =>
    match entryHref entry with
    | some u => if u = "" then none else some u
    | none => none

/-- `getPlayersUrlsFromEachTeam(team)` as a function of the fetch result.
When the page has no `tbody`, `tbody[0]` is `undefined` and
`cheerio.load(undefined)` throws, landing in the same catch branch as a
network failure (the modelled error string is that throw's message). -/
def getPlayersUrlsFromEachTeam (team : String)
    (fetched : Except String (List HNode)) :
    Option (List String) × List Warn :=
  match fetched with
  | .error e => (none, [.teamFetch team e])
  | .ok doc =>
    match (selectAll (isTag "tbody") doc).head? with
    | none => (none, [.teamFetch team "cheerio.load() expects a string"])
    | some table =>
      (if (rosterUrls table).length > 0 then some (rosterUrls table) else none, [])

/-- Phase 1 of `main`: the roster map after
`await Promise.all(teams.map(...))` — each team is bound to its URL list
when the extractor returned one, and is absent from the map otherwise. -/
def rosterOf (teams : List String)
    (fetchTeam : String → Except String (List HNode)) :
    String → Option (List String) :=
  fun t =>
    if teams.contains t then (getPlayersUrlsFromEachTeam t (fetchTeam t)).1
    else none

/-- Phase 2 of `main`: the `for (let team of teams)` loop.  `acc` is the
`players` array; each iteration maps `getPlayerDetail` over the team's
URLs (`Promise.all` delivers the results in input order), filters out the
`null`s and appends the survivors. -/
def mainLoop (pretty : String → String)
    (fetchPlayer : String → Except String (List HNode))
    (roster : String → Option (List String)) :
    List String → List Player → List Player
  | [], acc => acc
  | team :: rest, acc =>
    let playerUrls := (roster team).getD []
    let teamPlayers := playerUrls.map
      (fun url => (getPlayerDetail (pretty team) url (fetchPlayer url)).1)
    mainLoop pretty fetchPlayer roster rest (acc ++ teamPlayers.filterMap id)

/-- The full player list accumulated by `main`.  `pretty` stands for
`teamNamePrettier` (util.js is not part of the sources; per the spec it
only produces the human-readable team name, so it is an arbitrary
parameter here). -/
def mainPlayers (teams : List String) (pretty : String → String)
    (fetchTeam fetchPlayer : String → Except String (List HNode)) :
    List Player :=
  mainLoop pretty fetchPlayer (rosterOf teams fetchTeam) teams []

/-- CSV quoting for one field.  Modelled from the spec: the `json2csv`
serializer and the field-declaring `player` class (player.js) are not
part of the sources; spec section 4.6 fixes the shape — header row from
the field names in declaration order, one row per record, standard CSV
quoting/escaping for fields containing separators. -/
def quoteField (s : String) : String :=
  if s.contains ',' || s.contains '"' || s.contains '\x0a' then
    "\"" ++ (s.replace "\"" "\"\"") ++ "\""
  else s

/-- The CSV header row fields, in the declaration order of section 3 of
the spec (identical to the assignment order in `getPlayerDetail`). -/
def playerHeader : List String :=
  ["name", "overallAttribute", "team", "closeShot", "midRangeShot",
   "threePointShot", "freeThrow", "shotIQ", "offensiveConsistency",
   "speed", "agility", "strength", "vertical", "stamina", "hustle",
   "overallDurability", "layup", "standingDunk", "drivingDunk",
   "postHook", "postFade", "postControl", "drawFoul", "hands",
   "passAccuracy", "ballHandle", "speedWithBall", "passIQ", "passVision",
   "interiorDefense", "perimeterDefense", "steal", "block",
   "helpDefenseIQ", "passPerception", "defensiveConsistency",
   "offensiveRebound", "defensiveRebound", "legendaryBadgeCount",
   "purpleBadgeCount", "goldBadgeCount", "silverBadgeCount",
   "bronzeBadgeCount", "badgeCount", "outsideScoringBadgeCount",
   "insideScoringBadgeCount", "playmakingBadgeCount",
   "defensiveBadgeCount", "reboundingBadgeCount",
   "generalOffenseBadgeCount", "allAroundBadgeCount", "height",
   "position"]

/-- The CSV cell values of one player record, in declaration order. -/
def playerRow (p : Player) : List String :=
  [p.name, toString p.overallAttribute, p.team, toString p.closeShot,
   toString p.midRangeShot, toString p.threePointShot,
   toString p.freeThrow, toString p.shotIQ,
   toString p.offensiveConsistency, toString p.speed, toString p.agility,
   toString p.strength, toString p.vertical, toString p.stamina,
   toString p.hustle, toString p.overallDurability, toString p.layup,
   toString p.standingDunk, toString p.drivingDunk, toString p.postHook,
   toString p.postFade, toString p.postControl, toString p.drawFoul,
   toString p.hands, toString p.passAccuracy, toString p.ballHandle,
   toString p.speedWithBall, toString p.passIQ, toString p.passVision,
   toString p.interiorDefense, toString p.perimeterDefense,
   toString p.steal, toString p.block, toString p.helpDefenseIQ,
   toString p.passPerception, toString p.defensiveConsistency,
   toString p.offensiveRebound, toString p.defensiveRebound,
   toString p.legendaryBadgeCount, toString p.purpleBadgeCount,
   toString p.goldBadgeCount, toString p.silverBadgeCount,
   toString p.bronzeBadgeCount, toString p.badgeCount,
   toString p.outsideScoringBadgeCount, toString p.insideScoringBadgeCount,
   toString p.playmakingBadgeCount, toString p.defensiveBadgeCount,
   toString p.reboundingBadgeCount, toString p.generalOffenseBadgeCount,
   toString p.allAroundBadgeCount, p.height, p.position]

/-- `parse(players)` — the serialized CSV document: header row plus one
row per record, rows separated by a newline. -/
def csvOf (players : List Player) : String :=
  String.intercalate "\x0a"
    (String.intercalate "," (playerHeader.map quoteField)
      :: players.map (fun p => String.intercalate "," ((playerRow p).map quoteField)))

/-- A file-system operation performed by the saving phase:
`if (!fs.existsSync(dir)) fs.mkdirSync(dir, { recursive: true })`
(modelled as one conditional-creation step) and
`fs.writeFileSync(path, contents)` / `fs.writeFile(path, contents, cb)`. -/
inductive FsOp where
  | mkdirRecursiveIfMissing (dir : String)
  | writeFileSync (path : String) (contents : String)
deriving Repr, DecidableEq

/-- A file-system state: the set of existing directories and the file
contents by path. -/
structure FsState where
  dirs : List String
  files : String → Option String

/-- The characters of a path before its last slash. -/
def beforeLastSlash (l : List Char) : List Char :=
  (((l.reverse).dropWhile (fun c => c ≠ '/')).drop 1).reverse

/-- The parent directory of a path. -/
def parentDir (p : String) : String :=
  String.mk (beforeLastSlash p.data)

/-- Apply one operation: conditional recursive creation always succeeds;
a synchronous write succeeds exactly when the parent directory exists,
replacing any previous contents at that path. -/
def applyOp (s : FsState) : FsOp → Option FsState
  | .mkdirRecursiveIfMissing d =>
    some { s with dirs := if s.dirs.contains d then s.dirs else d :: s.dirs }
  | .writeFileSync p c =>
    if s.dirs.contains (parentDir p) then
      some { s with files := fun q => if q = p then some c else s.files q }
    else none

/-- Run a trace of operations; `none` when one of them fails. -/
def runOps (s : FsState) : List FsOp → Option FsState
  | [] => some s
  | op :: ops =>
    match applyOp s op with
    | some s2 => runOps s2 ops
    | none => none

/-- The contents of `path` after running `ops` from `s`. -/
def fileAfter (s : FsState) (ops : List FsOp) (path : String) : Option String :=
  (runOps s ops).bind fun st => st.files path

/-- The file-system trace of the saving phase of `main`: ensure `./data`
exists, then write the whole CSV to `path.join("data",
"2kroster_latest.csv")`. -/
def mainOps (players : List Player) : List FsOp :=
  [.mkdirRecursiveIfMissing "data",
   .writeFileSync "data/2kroster_latest.csv" (csvOf players)]

/-- The whole `main` run: the accumulated player list and the
file-system trace it performs. -/
def mainRun (teams : List String) (pretty : String → String)
    (fetchTeam fetchPlayer : String → Except String (List HNode)) :
    List Player × List FsOp :=
  let players := mainPlayers teams pretty fetchTeam fetchPlayer
  (players, mainOps players)

/-- The secondary rotating writer `saveData(db, suffix)`: one write to
`./data/2kroster_${suffix}_${today.toDateString()}.csv`.  It is defined
in the source but `main` never calls it. -/
def saveData (db : List Player) (suffix : String) (todayDateString : String) :
    FsOp :=
  .writeFileSync
    ("./data/2kroster_" ++ suffix ++ "_" ++ todayDateString ++ ".csv")
    (csvOf db)

/-- The 35 skill attributes of a record as one list, in the documented
order (index 0 = closeShot .. index 34 = defensiveRebound). -/
def skills (p : Player) : List Int :=
  [p.closeShot, p.midRangeShot, p.threePointShot, p.freeThrow, p.shotIQ,
   p.offensiveConsistency, p.speed, p.agility, p.strength, p.vertical,
   p.stamina, p.hustle, p.overallDurability, p.layup, p.standingDunk,
   p.drivingDunk, p.postHook, p.postFade, p.postControl, p.drawFoul,
   p.hands, p.passAccuracy, p.ballHandle, p.speedWithBall, p.passIQ,
   p.passVision, p.interiorDefense, p.perimeterDefense, p.steal, p.block,
   p.helpDefenseIQ, p.passPerception, p.defensiveConsistency,
   p.offensiveRebound, p.defensiveRebound]

/-- The 6 badge tier counts of a record as one list, in the documented
order (legendary, purple, gold, silver, bronze, total). -/
def badgeTiers (p : Player) : List Int :=
  [p.legendaryBadgeCount, p.purpleBadgeCount, p.goldBadgeCount,
   p.silverBadgeCount, p.bronzeBadgeCount, p.badgeCount]

/-- The 7 badge category counts of a record as one list. -/
def badgeCategories (p : Player) : List Int :=
  [p.outsideScoringBadgeCount, p.insideScoringBadgeCount,
   p.playmakingBadgeCount, p.defensiveBadgeCount,
   p.reboundingBadgeCount, p.generalOffenseBadgeCount,
   p.allAroundBadgeCount]

/-! ### Example documents used by counterexamples and witnesses -/

/-- A single `.attribute-box` element with the given children. -/
def box (ch : List HNode) : HNode :=
  .elem "div" ["attribute-box"] "" none (HForest.ofList ch)

/-- A document with the `.content .card .card-body .list-no-bullet li`
skeleton around the given attribute boxes. -/
def chainDoc (boxes : List HNode) : List HNode :=
  [.elem "div" ["content"] "" none (HForest.ofList
    [.elem "div" ["card"] "" none (HForest.ofList
      [.elem "div" ["card-body"] "" none (HForest.ofList
        [.elem "ul" ["list-no-bullet"] "" none (HForest.ofList
          [.elem "li" [] "" none (HForest.ofList boxes)])])])])]

/-- A page whose `.attribute-box-player` text carries a leading minus
sign. -/
def negOverallDoc : List HNode :=
  [.elem "div" ["attribute-box-player"] "" none (HForest.ofList [.text "-5"])]

/-- A page with two `h1` elements. -/
def twoH1Doc : List HNode :=
  [.elem "h1" [] "" none (HForest.ofList [.text "A"]),
   .elem "h1" [] "" none (HForest.ofList [.text "B"])]

/-- A page with exactly one `h1` element. -/
def oneH1Doc : List HNode :=
  [.elem "h1" [] "" none (HForest.ofList [.text " LeBron James "])]

/-- A roster page: a table containing a `tbody` with the given entries. -/
def tbodyDoc (entries : List HNode) : List HNode :=
  [.elem "table" [] "" none (HForest.ofList
    [.elem "tbody" [] "" none (HForest.ofList entries)])]

/-- The `tbody` element of `tbodyDoc`. -/
def tbodyOf (entries : List HNode) : HNode :=
  .elem "tbody" [] "" none (HForest.ofList entries)

/-- A `.entry-font` cell holding one anchor with the given `href`. -/
def entryCell (u : String) : HNode :=
  .elem "td" ["entry-font"] "" none (HForest.ofList
    [.elem "a" [] "" (some u) .nil])

/-- An attribute box whose first child is an element and whose second
child is the text node `85`. -/
def mixedBox : HNode :=
  box [.elem "span" [] "" none .nil, .text "85"]

/-- A page whose only attribute box is `mixedBox`. -/
def mixedBoxDoc : List HNode := chainDoc [mixedBox]

/-- A page with two attribute boxes holding `10` and `20`. -/
def twoBoxDoc : List HNode := chainDoc [box [.text "10"], box [.text "20"]]

/-- The same page with the first attribute box removed. -/
def oneBoxDoc : List HNode := chainDoc [box [.text "20"]]

/-- A page with one attribute box holding `10`. -/
def tenBoxDoc : List HNode := chainDoc [box [.text "10"]]

/-- A page whose one attribute box has no children at all. -/
def emptyBoxDoc : List HNode := chainDoc [box []]

/-- A player page with the `.header-subtitle` structure: position `PG` at
child path 4 and height `6ft6` at child path 6. -/
def headerDoc : List HNode :=
  [.elem "div" ["header-subtitle"] "" none (HForest.ofList
    [.text "w0", .text "w1", .text "w2", .text "w3",
     .elem "span" [] "" none (HForest.ofList
       [.text "lbl", .elem "b" [] "" none (HForest.ofList [.text "PG"])]),
     .text "w5",
     .elem "span" [] "" none (HForest.ofList
       [.text "lbl", .elem "b" [] "" none (HForest.ofList [.text "6ft6"])])])]

/-! ### Spec-worded definitions used to state refuted readings -/

/-- Is the node a text node? -/
def HNode.isText : HNode → Bool
  | .text _ => true
  | .elem _ _ _ _ _ => false

/-- The claim's words for the skill extraction: the data of the first
child that is a text node (the source instead reads `children[0]?.data`،
the first child only). -/
def specFirstTextNodeChild (n : HNode) : Option String :=
  (n.childList.filter HNode.isText).head?.bind HNode.nodeData

/-- The claim's words for the n-th skill value: parse the first text-node
child of the n-th attribute box, default 0. -/
def specSkillValue (attrs : List HNode) (n : Nat) : Int :=
  ((attrs[n]?.bind specFirstTextNodeChild).bind
    (fun d => jsParseInt (jsTrim d))).getD 0

/-- The claim's words for the name: the trimmed text of the first `h1`
element, default `Unknown` (the source instead concatenates the text of
every `h1`). -/
def specNameOf (doc : List HNode) : String :=
  match (selectAll (isTag "h1") doc).head? with
  | some n => jsOr (jsTrim n.textContent) "Unknown"
  | none => "Unknown"

/-- The seven badge tab ids queried by `getPlayerDetail`. -/
def pillsTabIds : List String :=
  ["pills-outscoring-tab", "pills-inscoring-tab", "pills-playmaking-tab",
   "pills-defense-tab", "pills-rebounding-tab", "pills-genoffense-tab",
   "pills-allaround-tab"]

/-! ### Helper lemmas -/

/-- The 35 skill fields of a built record are exactly `safeInt` of the
attribute-box sequence at positions 0..34, in the documented order. -/
lemma skills_buildPlayer (team : String) (doc : List HNode) :
    skills (buildPlayer team doc)
      = (List.range 35).map (fun n => safeInt (attrBoxes doc) n) := rfl

/-- The 6 badge tier fields are `safeBadge` of the badge-count sequence
at positions 0..5. -/
lemma badgeTiers_buildPlayer (team : String) (doc : List HNode) :
    badgeTiers (buildPlayer team doc)
      = (List.range 6).map (fun n => safeBadge (badgeBoxes doc) n) := rfl

/-- `getD` of a tabulated list. -/
lemma getD_range_map (f : Nat → Int) (m i : Nat) :
    ((List.range m).map f).getD i 0 = if i < m then f i else 0 := by
  rw [List.getD_eq_getElem?_getD, List.getElem?_map]
  by_cases h : i < m
  · rw [List.getElem?_range h]
    simp [h]
  · have hn : (List.range m)[i]? = none := by
      apply List.getElem?_eq_none
      simpa using Nat.le_of_not_lt h
    rw [hn]
    simp [h]

/-- An out-of-range index yields the default 0. -/
lemma safeInt_eq_zero_of_none {attrs : List HNode} {i : Nat}
    (h : attrs[i]? = none) : safeInt attrs i = 0 := by
  simp [safeInt, h]

/-- A missing or unparseable first child yields the default 0. -/
lemma safeInt_eq_zero_of_parse_none {attrs : List HNode} {i : Nat}
    (h : (attrs[i]?.bind HNode.firstChildData).bind
      (fun d => jsParseInt (jsTrim d)) = none) : safeInt attrs i = 0 := by
  simp [safeInt, h]

/-- `safeInt` only depends on the element at the requested index. -/
lemma safeInt_congr {attrs attrs2 : List HNode} {i : Nat}
    (h : attrs[i]? = attrs2[i]?) : safeInt attrs i = safeInt attrs2 i := by
  simp [safeInt, h]

/-- An out-of-range badge index yields the default 0. -/
lemma safeBadge_eq_zero_of_none {badges : List HNode} {i : Nat}
    (h : badges[i]? = none) : safeBadge badges i = 0 := by
  simp [safeBadge, h]

/-- The parenthesized-integer extraction never yields a negative count. -/
lemma parseBadgeTabText_nonneg (t : String) : 0 ≤ parseBadgeTabText t := by
  unfold parseBadgeTabText
  cases findParenNum t.data <;> simp

/-- The phase-2 loop accumulates on the right of its accumulator. -/
lemma mainLoop_append (pretty : String → String)
    (fetchPlayer : String → Except String (List HNode))
    (roster : String → Option (List String)) (ts : List String) :
    ∀ acc : List Player,
      mainLoop pretty fetchPlayer roster ts acc
        = acc ++ mainLoop pretty fetchPlayer roster ts [] := by
  induction ts with
  | nil => intro acc; simp [mainLoop]
  | cons t ts ih =>
    intro acc
    show mainLoop pretty fetchPlayer roster ts _
      = acc ++ mainLoop pretty fetchPlayer roster ts _
    rw [ih, ih (([] : List Player) ++ _)]
    simp

/-- The phase-2 loop is the in-order concatenation, over the configured
teams, of the per-team url lists mapped through the detail extractor with
the `null` results dropped. -/
lemma mainLoop_eq_flatMap (pretty : String → String)
    (fetchPlayer : String → Except String (List HNode))
    (roster : String → Option (List String)) (ts : List String) :
    mainLoop pretty fetchPlayer roster ts []
      = ts.flatMap (fun team =>
          ((roster team).getD []).filterMap
            (fun url => (getPlayerDetail (pretty team) url (fetchPlayer url)).1)) := by
  induction ts with
  | nil => rfl
  | cons t ts ih =>
    show mainLoop pretty fetchPlayer roster ts _ = _
    rw [mainLoop_append, ih]
    simp [List.flatMap_cons, List.filterMap_map]

/-- After the conditional recursive creation, the `data` directory
exists. -/
lemma dirs_after_mkdir (s : FsState) :
    (if s.dirs.contains "data" then s.dirs else "data" :: s.dirs).contains "data"
      = true := by
  by_cases h : s.dirs.contains "data" = true
  · rw [if_pos h]; exact h
  · rw [if_neg h]; simp [List.contains_cons]

/-- The rotating writer's path never collides with the fixed
`data/2kroster_latest.csv` path of the main run. -/
lemma rotatingPath_ne_latest (suffix today : String) :
    ("./data/2kroster_" ++ suffix ++ "_" ++ today ++ ".csv" : String)
      ≠ "data/2kroster_latest.csv" := by
  intro h
  have h2 : ("./data/2kroster_" ++ suffix ++ "_" ++ today ++ ".csv"
      : String).data.head? = some '.' := rfl
  rw [h] at h2
  exact absurd h2 (by decide)

/-! ### Claim C1 -/

/-- Claim C1 counterexample (non-negativity half): a page whose
overall-rating text is `-5` yields a negative `overallAttribute` —
`parseInt` keeps the sign and `|| 0` does not reject negative values —
so not every numeric field of a constructed record is non-negative. -/
theorem c1_counterexample :
    (buildPlayer "T" negOverallDoc).overallAttribute < 0 := by
  decide

/-- Claim C1 (amended): the seven badge category counts are always
non-negative; absence or parse failure of a field coerces to the default
0 for numeric fields and to the sentinels `Unknown` / `N/A` for text
fields, never to a missing value; fields read through `parseInt` equal
the signed parsed integer and can be negative when the page text carries
a leading minus sign. -/
theorem c1_field_invariants (team : String) (doc : List HNode) :
    (0 ≤ (buildPlayer team doc).outsideScoringBadgeCount
      ∧ 0 ≤ (buildPlayer team doc).insideScoringBadgeCount
      ∧ 0 ≤ (buildPlayer team doc).playmakingBadgeCount
      ∧ 0 ≤ (buildPlayer team doc).defensiveBadgeCount
      ∧ 0 ≤ (buildPlayer team doc).reboundingBadgeCount
      ∧ 0 ≤ (buildPlayer team doc).generalOffenseBadgeCount
      ∧ 0 ≤ (buildPlayer team doc).allAroundBadgeCount)
    ∧ (selectAll (isTag "h1") doc = [] → (buildPlayer team doc).name = "Unknown")
    ∧ (jsParseInt (jsTrim (overallText doc)) = none →
        (buildPlayer team doc).overallAttribute = 0)
    ∧ (∀ i, (attrBoxes doc)[i]? = none →
        (skills (buildPlayer team doc)).getD i 0 = 0)
    ∧ (∀ i, (badgeBoxes doc)[i]? = none →
        (badgeTiers (buildPlayer team doc)).getD i 0 = 0)
    ∧ (pathData (headerChildren doc) 6 = none →
        (buildPlayer team doc).height = "N/A")
    ∧ (pathData (headerChildren doc) 4 = none →
        (buildPlayer team doc).position = "N/A") := by
  refine ⟨⟨parseBadgeTabText_nonneg _, parseBadgeTabText_nonneg _,
    parseBadgeTabText_nonneg _, parseBadgeTabText_nonneg _,
    parseBadgeTabText_nonneg _, parseBadgeTabText_nonneg _,
    parseBadgeTabText_nonneg _⟩, ?_, ?_, ?_, ?_, ?_, ?_⟩
  · intro h
    have h0 : h1Text doc = "" := by
      unfold h1Text textOfMatches
      rw [h]
      rfl
    show jsOr (jsTrim (h1Text doc)) "Unknown" = "Unknown"
    rw [h0]
    rfl
  · intro h
    show (jsParseInt (jsTrim (overallText doc))).getD 0 = 0
    rw [h]
    rfl
  · intro i h
    rw [skills_buildPlayer, getD_range_map]
    by_cases hi : i < 35
    · rw [if_pos hi]
      exact safeInt_eq_zero_of_none h
    · rw [if_neg hi]
  · intro i h
    rw [badgeTiers_buildPlayer, getD_range_map]
    by_cases hi : i < 6
    · rw [if_pos hi]
      exact safeBadge_eq_zero_of_none h
    · rw [if_neg hi]
  · intro h
    show jsOrOpt (pathData (headerChildren doc) 6) "N/A" = "N/A"
    rw [h]
    rfl
  · intro h
    show jsOrOpt (pathData (headerChildren doc) 4) "N/A" = "N/A"
    rw [h]
    rfl

/-- Claim C1 witness: on the empty page every hypothesis of
`c1_field_invariants` is discharged and the documented defaults come
out. -/
theorem c1_field_invariants_witness :
    (buildPlayer "T" []).name = "Unknown"
    ∧ (buildPlayer "T" []).overallAttribute = 0
    ∧ (skills (buildPlayer "T" [])).getD 3 0 = 0
    ∧ (badgeTiers (buildPlayer "T" [])).getD 2 0 = 0
    ∧ (buildPlayer "T" []).height = "N/A"
    ∧ (buildPlayer "T" []).position = "N/A"
    ∧ 0 ≤ (buildPlayer "T" []).defensiveBadgeCount := by
  obtain ⟨hn, hname, hov, hsk, hbt, hht, hpos⟩ := c1_field_invariants "T" []
  exact ⟨hname rfl, hov rfl, hsk 3 rfl, hbt 2 rfl, hht rfl, hpos rfl,
    hn.2.2.1⟩

/-! ### Claim C2 -/

/-- Claim C2 counterexample (logging half): a roster page with a `tbody`
but no `.entry-font` entry makes the extractor return `null` with no
warning logged at all, so a `null` return is not always accompanied by a
warning naming the team. -/
theorem c2_counterexample :
    getPlayersUrlsFromEachTeam "atlanta-hawks" (.ok (tbodyDoc []))
      = (none, []) := rfl

/-- Claim C2 (amended): the extractor scopes to the first `tbody`, takes
the first anchor's `href` of every `.entry-font` element in document
order, returns `null` exactly when zero URLs were found or the
fetch/parse failed, logs a warning naming the team in the fetch/parse
failure case only (the zero-URLs case is silent), never throws, leaves
the team out of the roster map, and the run continues with the remaining
teams. -/
theorem c2_roster_extractor (team e : String) (doc : List HNode)
    (table : HNode) (fetched : Except String (List HNode))
    (teams rest : List String) (acc : List Player)
    (pretty : String → String)
    (ft fp : String → Except String (List HNode))
    (roster : String → Option (List String)) :
    (getPlayersUrlsFromEachTeam team (.error e)
        = (none, [Warn.teamFetch team e]))
    ∧ ((selectAll (isTag "tbody") doc).head? = none →
        getPlayersUrlsFromEachTeam team (.ok doc)
          = (none, [Warn.teamFetch team "cheerio.load() expects a string"]))
    ∧ ((selectAll (isTag "tbody") doc).head? = some table →
        getPlayersUrlsFromEachTeam team (.ok doc)
          = (if (rosterUrls table).length > 0 then some (rosterUrls table)
             else none, []))
    ∧ ((getPlayersUrlsFromEachTeam team fetched).1 = none ↔
        (∀ d tb, fetched = .ok d →
          (selectAll (isTag "tbody") d).head? = some tb → rosterUrls tb = []))
    ∧ ((getPlayersUrlsFromEachTeam team (ft team)).1 = none →
        rosterOf teams ft team = none)
    ∧ (roster team = none →
        mainLoop pretty fp roster (team :: rest) acc
          = mainLoop pretty fp roster rest acc) := by
  refine ⟨rfl, ?_, ?_, ?_, ?_, ?_⟩
  · intro h
    simp only [getPlayersUrlsFromEachTeam, h]
  · intro h
    simp only [getPlayersUrlsFromEachTeam, h]
  · cases fetched with
    | error e2 => simp [getPlayersUrlsFromEachTeam]
    | ok d =>
      cases h2 : (selectAll (isTag "tbody") d).head? with
      | none =>
        constructor
        · intro _ d2 tb hok htb
          injection hok with hd
          subst hd
          rw [h2] at htb
          exact Option.noConfusion htb
        · intro _
          simp [getPlayersUrlsFromEachTeam, h2]
      | some tb2 =>
        constructor
        · intro hnone d2 tb hok htb
          injection hok with hd
          subst hd
          rw [h2] at htb
          injection htb with htb2
          subst htb2
          by_cases hlen : (rosterUrls tb2).length > 0
          · simp [getPlayersUrlsFromEachTeam, h2, hlen] at hnone
          · exact List.length_eq_zero.mp (Nat.eq_zero_of_not_pos hlen)
        · intro hall
          have hz := hall d tb2 rfl h2
          simp [getPlayersUrlsFromEachTeam, h2, hz]
  · intro h
    unfold rosterOf
    by_cases hmem : teams.contains team = true
    · rw [if_pos hmem]
      exact h
    · rw [if_neg hmem]
  · intro h
    show mainLoop pretty fp roster rest _ = mainLoop pretty fp roster rest acc
    rw [h]
    simp [mainLoop]

/-- Claim C2 witness: a three-way concrete instantiation — a roster page
with two entries yields both URLs in document order, a failed team fetch
leaves the team absent from the roster map, and a team without a roster
entry contributes nothing while the loop continues. -/
theorem c2_roster_extractor_witness :
    getPlayersUrlsFromEachTeam "hawks"
        (.ok (tbodyDoc [entryCell "u1", entryCell "u2"]))
      = (some ["u1", "u2"], [])
    ∧ rosterOf ["hawks"] (fun _ => Except.error "boom") "hawks" = none
    ∧ mainLoop (fun s => s) (fun _ => Except.error "x") (fun _ => none)
        ["hawks"] []
      = mainLoop (fun s => s) (fun _ => Except.error "x") (fun _ => none)
        [] [] := by
  obtain ⟨h1, h2, h3, h4, h5, h6⟩ :=
    c2_roster_extractor "hawks" "boom"
      (tbodyDoc [entryCell "u1", entryCell "u2"])
      (tbodyOf [entryCell "u1", entryCell "u2"]) (.error "boom")
      ["hawks"] [] [] (fun s => s) (fun _ => Except.error "boom")
      (fun _ => Except.error "x") (fun _ => none)
  exact ⟨(h3 rfl).trans rfl, h5 rfl, h6 rfl⟩

/-! ### Claim C3 -/

/-- Claim C3 counterexample: on a page whose attribute box has an element
as first child and the text node `85` as second child, the source reads
`children[0]?.data` (yielding the default 0), not the first text-node
child (which would yield 85), so the claim's reading is refuted. -/
theorem c3_counterexample :
    (buildPlayer "T" mixedBoxDoc).closeShot
      ≠ specSkillValue (attrBoxes mixedBoxDoc) 0 := by
  decide

/-- Claim C3 (amended): the 35 skill fields are filled positionally from
the flat attribute-box sequence in the documented order; the n-th value
is the integer parsed from the data of the n-th element's first child
when that child is a text node, defaulting to 0 when the index is out of
range, the first child is absent or not a text node, or parsing fails. -/
theorem c3_positional (team : String) (doc : List HNode) :
    skills (buildPlayer team doc)
      = (List.range 35).map (fun n => safeInt (attrBoxes doc) n)
    ∧ (∀ n, (attrBoxes doc)[n]? = none → safeInt (attrBoxes doc) n = 0)
    ∧ (∀ n, (attrBoxes doc)[n]?.bind HNode.firstChildData = none →
        safeInt (attrBoxes doc) n = 0)
    ∧ (∀ n d, (attrBoxes doc)[n]?.bind HNode.firstChildData = some d →
        safeInt (attrBoxes doc) n = (jsParseInt (jsTrim d)).getD 0) := by
  refine ⟨skills_buildPlayer team doc, ?_, ?_, ?_⟩
  · intro n h
    exact safeInt_eq_zero_of_none h
  · intro n h
    apply safeInt_eq_zero_of_parse_none
    rw [h]
    rfl
  · intro n d h
    simp [safeInt, h]

/-- Claim C3 witness: a page with one attribute box holding the text
`10` gives `closeShot` 10 via the first-child rule, index 1 is out of
range and defaults to 0, and a childless box defaults to 0. -/
theorem c3_positional_witness :
    safeInt (attrBoxes tenBoxDoc) 0 = 10
    ∧ safeInt (attrBoxes tenBoxDoc) 1 = 0
    ∧ safeInt (attrBoxes emptyBoxDoc) 0 = 0 := by
  obtain ⟨hmap, hnone, hparse, hsome⟩ := c3_positional "T" tenBoxDoc
  obtain ⟨hmap2, hnone2, hparse2, hsome2⟩ := c3_positional "T" emptyBoxDoc
  exact ⟨(hsome 0 "10" rfl).trans rfl, hnone 1 rfl, hparse2 0 rfl⟩

/-! ### Claim C4 -/

/-- Claim C4: phase 2 walks the configured team list strictly in order;
for each team the detail extractor is mapped over that team's URLs (the
concurrent `Promise.all` batch resolves to the input-order list), the
`null` results are filtered out, and the survivors are appended to the
output — so the accumulated output is exactly the in-order concatenation
and every successful extraction contributes exactly one row at its
appended position. -/
theorem c4_phase2_round_trip (teams : List String) (pretty : String → String)
    (ft fp : String → Except String (List HNode)) :
    mainPlayers teams pretty ft fp
      = teams.flatMap (fun team =>
          ((rosterOf teams ft team).getD []).filterMap
            (fun url => (getPlayerDetail (pretty team) url (fp url)).1)) := by
  unfold mainPlayers
  exact mainLoop_eq_flatMap pretty fp (rosterOf teams ft) teams

/-! ### Claim C5 -/

/-- Claim C5 counterexample: removing the first attribute box of a page
with boxes `10`, `20` does not leave the `closeShot` field at its
default — the positional indexing shifts, `closeShot` becomes 20, and
the neighbouring `midRangeShot` field changes as well. -/
theorem c5_counterexample :
    (buildPlayer "T" oneBoxDoc).closeShot = 20
    ∧ ((20 : Int) ≠ 0)
    ∧ (buildPlayer "T" twoBoxDoc).midRangeShot
        ≠ (buildPlayer "T" oneBoxDoc).midRangeShot := by
  refine ⟨rfl, by decide, by decide⟩

/-- Claim C5 (amended): when an attribute's value is missing in place —
the box at index i has no parseable first text child while all other
extraction inputs are unchanged — the corresponding skill field takes
its default 0 and every other field of the record is unchanged.
(Removing an interior element of a positional list instead shifts every
later positional field, as the counterexample shows.) -/
theorem c5_frame (team : String) (d d2 : List HNode) (i : Nat)
    (hname : h1Text d = h1Text d2)
    (hov : overallText d = overallText d2)
    (hbadge : badgeBoxes d = badgeBoxes d2)
    (htab : ∀ tid ∈ pillsTabIds, tabTextOf d tid = tabTextOf d2 tid)
    (hhdr : headerChildren d = headerChildren d2)
    (hattr : ∀ j, j ≠ i → (attrBoxes d)[j]? = (attrBoxes d2)[j]?)
    (hmiss : ((attrBoxes d2)[i]?.bind HNode.firstChildData).bind
        (fun s => jsParseInt (jsTrim s)) = none) :
    (skills (buildPlayer team d2)).getD i 0 = 0
    ∧ (∀ j, j ≠ i → (skills (buildPlayer team d2)).getD j 0
        = (skills (buildPlayer team d)).getD j 0)
    ∧ (buildPlayer team d2).name = (buildPlayer team d).name
    ∧ (buildPlayer team d2).overallAttribute
        = (buildPlayer team d).overallAttribute
    ∧ (buildPlayer team d2).team = (buildPlayer team d).team
    ∧ badgeTiers (buildPlayer team d2) = badgeTiers (buildPlayer team d)
    ∧ badgeCategories (buildPlayer team d2)
        = badgeCategories (buildPlayer team d)
    ∧ (buildPlayer team d2).height = (buildPlayer team d).height
    ∧ (buildPlayer team d2).position = (buildPlayer team d).position := by
  refine ⟨?_, ?_, ?_, ?_, rfl, ?_, ?_, ?_, ?_⟩
  · rw [skills_buildPlayer, getD_range_map]
    by_cases hi : i < 35
    · rw [if_pos hi]
      exact safeInt_eq_zero_of_parse_none hmiss
    · rw [if_neg hi]
  · intro j hj
    rw [skills_buildPlayer, skills_buildPlayer, getD_range_map,
      getD_range_map]
    by_cases hj35 : j < 35
    · rw [if_pos hj35, if_pos hj35]
      exact (safeInt_congr (hattr j hj)).symm
    · rw [if_neg hj35, if_neg hj35]
  · show jsOr (jsTrim (h1Text d2)) "Unknown"
      = jsOr (jsTrim (h1Text d)) "Unknown"
    rw [hname]
  · show (jsParseInt (jsTrim (overallText d2))).getD 0
      = (jsParseInt (jsTrim (overallText d))).getD 0
    rw [hov]
  · rw [badgeTiers_buildPlayer, badgeTiers_buildPlayer, hbadge]
  · show [parseBadgeTab d2 "pills-outscoring-tab",
      parseBadgeTab d2 "pills-inscoring-tab",
      parseBadgeTab d2 "pills-playmaking-tab",
      parseBadgeTab d2 "pills-defense-tab",
      parseBadgeTab d2 "pills-rebounding-tab",
      parseBadgeTab d2 "pills-genoffense-tab",
      parseBadgeTab d2 "pills-allaround-tab"]
      = [parseBadgeTab d "pills-outscoring-tab",
        parseBadgeTab d "pills-inscoring-tab",
        parseBadgeTab d "pills-playmaking-tab",
        parseBadgeTab d "pills-defense-tab",
        parseBadgeTab d "pills-rebounding-tab",
        parseBadgeTab d "pills-genoffense-tab",
        parseBadgeTab d "pills-allaround-tab"]
    unfold parseBadgeTab
    rw [htab "pills-outscoring-tab" (by simp [pillsTabIds]),
      htab "pills-inscoring-tab" (by simp [pillsTabIds]),
      htab "pills-playmaking-tab" (by simp [pillsTabIds]),
      htab "pills-defense-tab" (by simp [pillsTabIds]),
      htab "pills-rebounding-tab" (by simp [pillsTabIds]),
      htab "pills-genoffense-tab" (by simp [pillsTabIds]),
      htab "pills-allaround-tab" (by simp [pillsTabIds])]
  · show jsOrOpt (pathData (headerChildren d2) 6) "N/A"
      = jsOrOpt (pathData (headerChildren d) 6) "N/A"
    rw [hhdr]
  · show jsOrOpt (pathData (headerChildren d2) 4) "N/A"
      = jsOrOpt (pathData (headerChildren d) 4) "N/A"
    rw [hhdr]

/-- Claim C5 witness: emptying the only attribute box (same page
otherwise) sends the skill at index 0 to its default 0 and leaves the
out-of-range skill at index 1, the name and the height unchanged. -/
theorem c5_frame_witness :
    (skills (buildPlayer "T" emptyBoxDoc)).getD 0 0 = 0
    ∧ (skills (buildPlayer "T" emptyBoxDoc)).getD 1 0
        = (skills (buildPlayer "T" tenBoxDoc)).getD 1 0
    ∧ (buildPlayer "T" emptyBoxDoc).name = (buildPlayer "T" tenBoxDoc).name
    ∧ (buildPlayer "T" emptyBoxDoc).height
        = (buildPlayer "T" tenBoxDoc).height := by
  obtain ⟨h1, h2, h3, h4, h5, h6, h7, h8, h9⟩ :=
    c5_frame "T" tenBoxDoc emptyBoxDoc 0 rfl rfl rfl (by decide) rfl
      (fun j hj => by
        cases j with
        | zero => exact absurd rfl hj
        | succ n => rfl)
      rfl
  exact ⟨h1, h2 1 (by decide), h3, h8⟩

/-! ### Claim C6 -/

/-- Claim C6 counterexample: on a page with two `h1` elements holding `A`
and `B`, `$("h1").text()` concatenates to `AB`, which differs from the
trimmed text of the first `h1` element. -/
theorem c6_counterexample :
    (buildPlayer "T" twoH1Doc).name ≠ specNameOf twoH1Doc := by
  decide

/-- Claim C6 (amended): the name field equals the trimmed concatenation
of the text of all `h1` elements — the first `h1`'s trimmed text when
the page has at most one `h1` — and defaults to `Unknown` when there is
no `h1` or the text trims to empty. -/
theorem c6_name (team : String) (doc : List HNode) :
    (buildPlayer team doc).name = jsOr (jsTrim (h1Text doc)) "Unknown"
    ∧ (selectAll (isTag "h1") doc = [] →
        (buildPlayer team doc).name = "Unknown")
    ∧ (∀ n, selectAll (isTag "h1") doc = [n] →
        (buildPlayer team doc).name = jsOr (jsTrim n.textContent) "Unknown") := by
  refine ⟨rfl, ?_, ?_⟩
  · intro h
    show jsOr (jsTrim (h1Text doc)) "Unknown" = "Unknown"
    unfold h1Text textOfMatches
    rw [h]
    rfl
  · intro n h
    show jsOr (jsTrim (h1Text doc)) "Unknown"
      = jsOr (jsTrim n.textContent) "Unknown"
    unfold h1Text textOfMatches
    rw [h]
    rfl

/-- Claim C6 witness: a page with exactly one `h1` resolves to its
trimmed text; a page with none resolves to `Unknown`. -/
theorem c6_name_witness :
    (buildPlayer "T" oneH1Doc).name = "LeBron James"
    ∧ (buildPlayer "T" (chainDoc [])).name = "Unknown" := by
  obtain ⟨ha, hb, hc⟩ := c6_name "T" oneH1Doc
  obtain ⟨ha2, hb2, hc2⟩ := c6_name "T" (chainDoc [])
  exact ⟨(hc (.elem "h1" [] "" none (HForest.ofList
    [.text " LeBron James "])) rfl).trans rfl, hb2 rfl⟩

/-! ### Claim C7 -/

/-- Claim C7: the position field is read from the fixed nested child path
at index 4 of the `.header-subtitle` element's children and the height
field from the analogous path at index 6, and each is `N/A` whenever any
step of its path is absent. -/
theorem c7_height_position (team : String) (doc : List HNode) :
    (buildPlayer team doc).position
      = jsOrOpt (pathData (headerChildren doc) 4) "N/A"
    ∧ (buildPlayer team doc).height
      = jsOrOpt (pathData (headerChildren doc) 6) "N/A"
    ∧ (pathData (headerChildren doc) 4 = none →
        (buildPlayer team doc).position = "N/A")
    ∧ (pathData (headerChildren doc) 6 = none →
        (buildPlayer team doc).height = "N/A")
    ∧ (∀ s, pathData (headerChildren doc) 4 = some s → s ≠ "" →
        (buildPlayer team doc).position = s)
    ∧ (∀ s, pathData (headerChildren doc) 6 = some s → s ≠ "" →
        (buildPlayer team doc).height = s) := by
  refine ⟨rfl, rfl, ?_, ?_, ?_, ?_⟩
  · intro h
    show jsOrOpt (pathData (headerChildren doc) 4) "N/A" = "N/A"
    rw [h]
    rfl
  · intro h
    show jsOrOpt (pathData (headerChildren doc) 6) "N/A" = "N/A"
    rw [h]
    rfl
  · intro s h hs
    show jsOrOpt (pathData (headerChildren doc) 4) "N/A" = s
    rw [h]
    simp [jsOrOpt, jsOr, hs]
  · intro s h hs
    show jsOrOpt (pathData (headerChildren doc) 6) "N/A" = s
    rw [h]
    simp [jsOrOpt, jsOr, hs]

/-- Claim C7 witness: a concrete `.header-subtitle` with position `PG`
at path index 4 and height `6ft6` at path index 6 resolves to those
values, and an empty page resolves both to `N/A`. -/
theorem c7_height_position_witness :
    (buildPlayer "T" headerDoc).position = "PG"
    ∧ (buildPlayer "T" headerDoc).height = "6ft6"
    ∧ (buildPlayer "T" []).position = "N/A" := by
  obtain ⟨ha, hb, h4, h6, hp, hh⟩ := c7_height_position "T" headerDoc
  obtain ⟨ha2, hb2, h4e, h6e, hp2, hh2⟩ := c7_height_position "T" []
  exact ⟨hp "PG" rfl (by decide), hh "6ft6" rfl (by decide), h4e rfl⟩

/-! ### Claim C8 -/

/-- Claim C8: the main run is a pure function of the fetched pages and
the fixed configuration — two runs over extensionally equal fetch
results produce the same player list, the same file-system trace and
byte-identical CSV content. -/
theorem c8_idempotent (teams : List String) (pretty : String → String)
    (ft fp ft2 fp2 : String → Except String (List HNode))
    (hft : ∀ t, ft t = ft2 t) (hfp : ∀ u, fp u = fp2 u) :
    mainRun teams pretty ft fp = mainRun teams pretty ft2 fp2
    ∧ csvOf (mainPlayers teams pretty ft fp)
      = csvOf (mainPlayers teams pretty ft2 fp2) := by
  have h1 : ft = ft2 := funext hft
  have h2 : fp = fp2 := funext hfp
  subst h1
  subst h2
  exact ⟨rfl, rfl⟩

/-- Claim C8 witness: two syntactically different but pointwise equal
fetch functions give identical runs. -/
theorem c8_idempotent_witness :
    mainRun ["hawks"] (fun s => s)
        (fun _ => Except.error ("e" ++ ""))
        (fun _ => Except.error "e2")
      = mainRun ["hawks"] (fun s => s) (fun _ => Except.error "e")
        (fun _ => Except.error ("e2" ++ "")) :=
  (c8_idempotent ["hawks"] (fun s => s)
    (fun _ => Except.error ("e" ++ ""))
    (fun _ => Except.error "e2")
    (fun _ => Except.error "e")
    (fun _ => Except.error ("e2" ++ ""))
    (fun _ => rfl) (fun _ => rfl)).1

/-! ### Claim C9 -/

/-- Running the two saving-phase operations from any initial state ends
with the CSV stored at the fixed path. -/
lemma fileAfter_mainOps (ps : List Player) (s : FsState) :
    fileAfter s (mainOps ps) "data/2kroster_latest.csv" = some (csvOf ps) := by
  have hp : parentDir "data/2kroster_latest.csv" = "data" := rfl
  show ((runOps s (mainOps ps)).bind
    fun st => st.files "data/2kroster_latest.csv") = some (csvOf ps)
  simp only [mainOps, runOps, applyOp, hp, dirs_after_mkdir, if_true]
  simp

/-- Claim C9: the main run's trace contains exactly one write — the
whole CSV at the fixed path `data/2kroster_latest.csv` — which succeeds
from any prior state and replaces any previous contents there; no write
of the rotating `saveData` helper ever occurs in the trace. -/
theorem c9_single_write (teams : List String) (pretty : String → String)
    (ft fp : String → Except String (List HNode)) :
    ((mainRun teams pretty ft fp).2.filter fun op =>
        match op with
        | .writeFileSync _ _ => true
        | .mkdirRecursiveIfMissing _ => false)
      = [FsOp.writeFileSync "data/2kroster_latest.csv"
          (csvOf (mainPlayers teams pretty ft fp))]
    ∧ (∀ s : FsState,
        fileAfter s (mainRun teams pretty ft fp).2 "data/2kroster_latest.csv"
          = some (csvOf (mainPlayers teams pretty ft fp)))
    ∧ (∀ (db : List Player) (suffix today : String),
        saveData db suffix today ∉ (mainRun teams pretty ft fp).2) := by
  refine ⟨rfl, ?_, ?_⟩
  · intro s
    exact fileAfter_mainOps (mainPlayers teams pretty ft fp) s
  · intro db suffix today hmem
    have hcase : saveData db suffix today
        = FsOp.mkdirRecursiveIfMissing "data"
      ∨ saveData db suffix today
        = FsOp.writeFileSync "data/2kroster_latest.csv"
            (csvOf (mainPlayers teams pretty ft fp)) := by
      simpa [mainRun, mainOps] using hmem
    rcases hcase with h | h
    · simp [saveData] at h
    · simp only [saveData] at h
      injection h with hpath
      exact rotatingPath_ne_latest suffix today hpath

/-! ### Claim C10 -/

/-- Claim C10: the first operation of the saving phase is the
conditional recursive creation of the `data` directory; after it the
directory exists in every state, and hence the whole trace — including
the final write — succeeds from any initial state, so a merely missing
output directory never aborts the run. -/
theorem c10_ensure_dir (teams : List String) (pretty : String → String)
    (ft fp : String → Except String (List HNode)) :
    ((mainRun teams pretty ft fp).2).head?
      = some (FsOp.mkdirRecursiveIfMissing "data")
    ∧ (∀ s : FsState,
        (applyOp s (FsOp.mkdirRecursiveIfMissing "data")).map
          (fun st => st.dirs.contains "data") = some true)
    ∧ (∀ s : FsState,
        (runOps s (mainRun teams pretty ft fp).2).isSome = true) := by
  refine ⟨rfl, ?_, ?_⟩
  · intro s
    show some ((if s.dirs.contains "data" then s.dirs
      else "data" :: s.dirs).contains "data") = some true
    rw [dirs_after_mkdir s]
  · intro s
    have h := fileAfter_mainOps (mainPlayers teams pretty ft fp) s
    show (runOps s (mainOps (mainPlayers teams pretty ft fp))).isSome = true
    unfold fileAfter at h
    cases hr : runOps s (mainOps (mainPlayers teams pretty ft fp)) with
    | none =>
      rw [hr] at h
      exact Option.noConfusion h
    | some st => rfl
